import Mathlib

/-!
Shallow embedding of `service_monitor.py` (EthDevOps/k8s-service-trigger).

The program watches Kubernetes service events and triggers a GitHub Actions
workflow with a global debounce.  Time is modelled in integer seconds; the
environment variables as `Option String` (Python `os.environ.get` returns
`None` when unset, and Python truthiness treats `None` and `""` alike);
the GitHub API as an oracle whose calls either return a value or raise
(`Except`), mirroring the `try`/`except` structure of the source.
-/

namespace ServiceMonitor

/-- Python truthiness of an `os.environ.get` result: `None` and the empty
string are falsy, every other string is truthy (`if not GITHUB_REPO: ...`). -/
def truthy : Option String → Bool
  | none => false
  | some s => !(s == "")

/-- Python `x or ""` on an `os.environ.get` result (`TENANT or ""`). -/
def orEmpty : Option String → String
  | none => ""
  | some s => s

/-- Python `str.endswith(suf)`: suffix test on the character sequence
(`wf.path.endswith(WORKFLOW_FILE)`). -/
def pyEndswith (s suf : String) : Bool :=
  List.isSuffixOf suf.data s.data

/-- The environment-variable configuration read at module load
(lines 18-22 of `service_monitor.py`). `GITHUB_TOKEN` is passed separately
where the source passes it separately. -/
structure Config where
  github_repo : Option String
  workflow_file : Option String
  tenant : Option String
  project : Option String
deriving DecidableEq, Repr

/-- A workflow descriptor as used by the source: its `path` and `id`. -/
structure Workflow where
  path : String
  id : Nat
deriving DecidableEq, Repr

/-- The downstream GitHub API, as an oracle.  `workflows` models
`Github(gh_token)` / `get_repo` / `get_workflows` (lines 69-73): either the
resulting workflow list or a raised exception.  `dispatch` models
`workflow.create_dispatch` (lines 100-103) on a given workflow id: success
or a raised exception. -/
structure GitHubEnv where
  workflows : Except String (List Workflow)
  dispatch : Nat → Except String Unit

/-- `DEBOUNCE_INTERVAL = 180` (line 26): 3 minutes in seconds. -/
def DEBOUNCE_INTERVAL : Int := 180

/-- Classification of one `trigger_github_workflow` call, mirroring the
source's distinct logged error/skip/success branches. -/
inductive TriggerOutcome where
  | missingRepo
  | missingWorkflowFile
  | debounced (secondsAgo : Int)
  | listFailed (msg : String)
  | jobNotFound
  | dispatchFailed (msg : String)
  | dispatched
deriving DecidableEq, Repr

/-- Everything one call of `trigger_github_workflow` does:
`ok` is its boolean return value; `newState` is `last_trigger_global`
after the call (the state before it is an argument); `outcome` records the
branch taken; `listCalled` is true iff the GitHub listing calls were made
(lines 69-73); `dispatchCalled` is true iff `create_dispatch` was invoked
(line 100); `dispatchInputs` is the `inputs` dict (`team`, `project`)
passed to `create_dispatch`, when it was invoked; `selected` is the
workflow chosen by the suffix search, when one was chosen. -/
structure TriggerResult where
  ok : Bool
  newState : Int
  outcome : TriggerOutcome
  listCalled : Bool
  dispatchCalled : Bool
  dispatchInputs : Option (String × String)
  selected : Option Workflow
deriving DecidableEq, Repr

/-- `trigger_github_workflow` (lines 38-125), as a pure function of the
configuration, the GitHub oracle, the current clock value `now`
(`time.time()`, line 58), the incoming `last_trigger_global` value `st`,
and the service key (used by the source only in log strings). -/
def trigger_github_workflow (cfg : Config) (env : GitHubEnv) (now st : Int)
    (service_key : String) : TriggerResult :=
  if truthy cfg.github_repo = false then
    ⟨false, st, .missingRepo, false, false, none, none⟩
  else if truthy cfg.workflow_file = false then
    ⟨false, st, .missingWorkflowFile, false, false, none, none⟩
  else
    let time_since_last := now - st
    if time_since_last < DEBOUNCE_INTERVAL then
      ⟨false, st, .debounced time_since_last, false, false, none, none⟩
    else
      match env.workflows with
      | .error m => ⟨false, st, .listFailed m, true, false, none, none⟩
      | .ok wfs =>
        match wfs.find? (fun wf => pyEndswith wf.path (orEmpty cfg.workflow_file)) with
        | none => ⟨false, st, .jobNotFound, true, false, none, none⟩
        | some wf =>
          let inputs := (orEmpty cfg.tenant, orEmpty cfg.project)
          match env.dispatch wf.id with
          | .ok _ => ⟨true, now, .dispatched, true, true, some inputs, some wf⟩
          | .error m => ⟨false, st, .dispatchFailed m, true, true, some inputs, some wf⟩

/-- A raw Kubernetes watch event as consumed by `watch_services`
(lines 143-155): `event['type']`, `metadata.namespace`, `metadata.name`,
`spec.type`. -/
structure K8sEvent where
  typ : String
  ns : String
  name : String
  svcType : String
deriving DecidableEq, Repr

/-- `f"{service.metadata.namespace}/{service.metadata.name}"` (line 154). -/
def resourceKey (ev : K8sEvent) : String := ev.ns ++ "/" ++ ev.name

/-- What one iteration of the `watch_services` event loop does for one
event: whether `trigger_github_workflow` was called (and its result),
the `last_trigger_global` value afterwards, and whether the
missing-`GITHUB_TOKEN` error was logged (line 157). -/
structure WatchStepResult where
  triggerCalled : Bool
  triggerResult : Option TriggerResult
  newState : Int
  loggedMissingToken : Bool
deriving DecidableEq, Repr

/-- The body of the `for event in w.stream(...)` loop (lines 143-157):
only `LoadBalancer` services, only `ADDED`/`MODIFIED`/`DELETED` events,
and only with a truthy `GITHUB_TOKEN`, reach `trigger_github_workflow`. -/
def process_event (gh_token : Option String) (cfg : Config) (env : GitHubEnv)
    (now st : Int) (ev : K8sEvent) : WatchStepResult :=
  if ev.svcType = "LoadBalancer" then
    if ev.typ = "ADDED" ∨ ev.typ = "MODIFIED" ∨ ev.typ = "DELETED" then
      if truthy gh_token then
        let r := trigger_github_workflow cfg env now st (resourceKey ev)
        ⟨true, some r, r.newState, false⟩
      else
        ⟨false, none, st, true⟩
    else
      ⟨false, none, st, false⟩
  else
    ⟨false, none, st, false⟩

/-- One qualifying event of a trace: its clock value, its service key, and
the GitHub oracle's behaviour at that moment. -/
structure QEvent where
  time : Int
  key : String
  env : GitHubEnv

/-- Run `trigger_github_workflow` over a sequence of qualifying events,
threading `last_trigger_global` exactly as the module-level variable is
threaded through successive calls; returns each event paired with its
call's result. -/
def runTrace (cfg : Config) (st : Int) : List QEvent → List (QEvent × TriggerResult)
  | [] => []
  | e :: es =>
    let r := trigger_github_workflow cfg e.env e.time st e.key
    (e, r) :: runTrace cfg r.newState es

/-- The clock values of the successful dispatches of a trace. -/
def successTimes (cfg : Config) (st : Int) (es : List QEvent) : List Int :=
  (runTrace cfg st es).filterMap (fun p => if p.2.ok then some p.1.time else none)

/-- Outcome of one `watch_services()` call as seen by `main`: the stream
iteration raised, or the function returned normally (stream ended). -/
inductive WatchOutcome where
  | raised (msg : String)
  | returned
deriving DecidableEq, Repr

/-- What one iteration of `main`'s `while True:` loop does (lines 171-177)
after `watch_services()` finishes with the given outcome: whether the
`"Error in main loop"` log was emitted, how many seconds were slept, and
whether the loop goes around again (it always does: the body contains no
`break` or `return`). -/
structure IterationEffect where
  loggedError : Bool
  sleptSeconds : Nat
  restarts : Bool
deriving DecidableEq, Repr

/-- One iteration of `main`'s supervisor loop: `except Exception` logs and
sleeps 5 seconds; a normal return of `watch_services` skips the `except`
block entirely. -/
def main_loop_iteration : WatchOutcome → IterationEffect
  | .raised _ => ⟨true, 5, true⟩
  | .returned => ⟨false, 0, true⟩

/-- The effects of the first `n` supervisor iterations, given the outcome
of each `watch_services()` call. -/
def supervisorTrace (f : Nat → WatchOutcome) (n : Nat) : List IterationEffect :=
  (List.range n).map (fun i => main_loop_iteration (f i))

/-- What `main` (lines 163-177) does before its loop: `exit(1)` when
`GITHUB_TOKEN` is falsy, otherwise it enters the `while True:` loop. -/
inductive StartupResult where
  | exited (code : Nat)
  | enteredLoop
deriving DecidableEq, Repr

/-- The startup check of `main` (lines 167-169). -/
def main_startup (gh_token : Option String) : StartupResult :=
  if truthy gh_token then .enteredLoop else .exited 1

/-! ### Concrete instances used by witnesses and counterexamples -/

/-- A fully-populated configuration. -/
def cfgFull : Config := ⟨some "org/repo", some "deploy.yml", some "teamA", some "projB"⟩

/-- Configuration with `TENANT` and `PROJECT` unset. -/
def cfgNoTenant : Config := ⟨some "org/repo", some "deploy.yml", none, none⟩

/-- Configuration with `GITHUB_REPO` unset. -/
def cfgNoRepo : Config := ⟨none, some "deploy.yml", some "teamA", some "projB"⟩

/-- A GitHub oracle where listing yields `["ci.yml", "deploy.yml"]` and every
dispatch succeeds. -/
def envOk : GitHubEnv := ⟨.ok [⟨"ci.yml", 1⟩, ⟨"deploy.yml", 2⟩], fun _ => .ok ()⟩

/-- A GitHub oracle whose dispatch call always raises. -/
def envDispatchFail : GitHubEnv :=
  ⟨.ok [⟨"ci.yml", 1⟩, ⟨"deploy.yml", 2⟩], fun _ => .error "HTTP 422"⟩

/-! ### Branch equations for `trigger_github_workflow` -/

/-- With a falsy `GITHUB_REPO` the function logs, returns `False`, touches
nothing (lines 50-52). -/
theorem trigger_eq_missingRepo (cfg : Config) (env : GitHubEnv) (now st : Int)
    (k : String) (h : truthy cfg.github_repo = false) :
    trigger_github_workflow cfg env now st k =
      ⟨false, st, .missingRepo, false, false, none, none⟩ := by
  simp [trigger_github_workflow, h]

/-- With a truthy `GITHUB_REPO` but falsy `WORKFLOW_FILE` (lines 54-56). -/
theorem trigger_eq_missingWorkflowFile (cfg : Config) (env : GitHubEnv)
    (now st : Int) (k : String) (hr : truthy cfg.github_repo = true)
    (hw : truthy cfg.workflow_file = false) :
    trigger_github_workflow cfg env now st k =
      ⟨false, st, .missingWorkflowFile, false, false, none, none⟩ := by
  simp [trigger_github_workflow, hr, hw]

/-- Inside the debounce window the call is skipped (lines 62-65). -/
theorem trigger_eq_debounced (cfg : Config) (env : GitHubEnv) (now st : Int)
    (k : String) (hr : truthy cfg.github_repo = true)
    (hw : truthy cfg.workflow_file = true)
    (hd : now - st < DEBOUNCE_INTERVAL) :
    trigger_github_workflow cfg env now st k =
      ⟨false, st, .debounced (now - st), false, false, none, none⟩ := by
  simp [trigger_github_workflow, hr, hw, hd]

/-- A raised exception during repo access / workflow listing is caught by the
outer `except` (lines 118-125). -/
theorem trigger_eq_listFailed (cfg : Config) (env : GitHubEnv) (now st : Int)
    (k : String) (m : String) (hr : truthy cfg.github_repo = true)
    (hw : truthy cfg.workflow_file = true)
    (hd : ¬ now - st < DEBOUNCE_INTERVAL) (hl : env.workflows = .error m) :
    trigger_github_workflow cfg env now st k =
      ⟨false, st, .listFailed m, true, false, none, none⟩ := by
  simp [trigger_github_workflow, hr, hw, hd, hl]

/-- No workflow path ends with the configured filename (lines 86-88). -/
theorem trigger_eq_jobNotFound (cfg : Config) (env : GitHubEnv) (now st : Int)
    (k : String) (wfs : List Workflow) (hr : truthy cfg.github_repo = true)
    (hw : truthy cfg.workflow_file = true)
    (hd : ¬ now - st < DEBOUNCE_INTERVAL) (hl : env.workflows = .ok wfs)
    (hf : wfs.find? (fun w => pyEndswith w.path (orEmpty cfg.workflow_file)) = none) :
    trigger_github_workflow cfg env now st k =
      ⟨false, st, .jobNotFound, true, false, none, none⟩ := by
  simp [trigger_github_workflow, hr, hw, hd, hl, hf]

/-- Successful dispatch: the state is set to `current_time` (lines 100-107). -/
theorem trigger_eq_dispatched (cfg : Config) (env : GitHubEnv) (now st : Int)
    (k : String) (wfs : List Workflow) (wf : Workflow)
    (hr : truthy cfg.github_repo = true) (hw : truthy cfg.workflow_file = true)
    (hd : ¬ now - st < DEBOUNCE_INTERVAL) (hl : env.workflows = .ok wfs)
    (hf : wfs.find? (fun w => pyEndswith w.path (orEmpty cfg.workflow_file)) = some wf)
    (hok : env.dispatch wf.id = .ok ()) :
    trigger_github_workflow cfg env now st k =
      ⟨true, now, .dispatched, true, true,
        some (orEmpty cfg.tenant, orEmpty cfg.project), some wf⟩ := by
  simp [trigger_github_workflow, hr, hw, hd, hl, hf, hok]

/-- A raised exception from `create_dispatch` is caught by the inner
`except` and the state is left untouched (lines 109-116). -/
theorem trigger_eq_dispatchFailed (cfg : Config) (env : GitHubEnv) (now st : Int)
    (k : String) (wfs : List Workflow) (wf : Workflow) (m : String)
    (hr : truthy cfg.github_repo = true) (hw : truthy cfg.workflow_file = true)
    (hd : ¬ now - st < DEBOUNCE_INTERVAL) (hl : env.workflows = .ok wfs)
    (hf : wfs.find? (fun w => pyEndswith w.path (orEmpty cfg.workflow_file)) = some wf)
    (herr : env.dispatch wf.id = .error m) :
    trigger_github_workflow cfg env now st k =
      ⟨false, st, .dispatchFailed m, true, true,
        some (orEmpty cfg.tenant, orEmpty cfg.project), some wf⟩ := by
  simp [trigger_github_workflow, hr, hw, hd, hl, hf, herr]

/-! ### State-update facts and the trace invariant -/

/-- A successful call set the state to `now` and the debounce gate must have
passed; an unsuccessful call left the state exactly as it was. -/
theorem trigger_ok_facts (cfg : Config) (env : GitHubEnv) (now st : Int)
    (k : String) :
    ((trigger_github_workflow cfg env now st k).ok = true →
      (trigger_github_workflow cfg env now st k).newState = now ∧
        st + DEBOUNCE_INTERVAL ≤ now) ∧
    ((trigger_github_workflow cfg env now st k).ok = false →
      (trigger_github_workflow cfg env now st k).newState = st) := by
  by_cases hr : truthy cfg.github_repo = true
  · by_cases hw : truthy cfg.workflow_file = true
    · by_cases hd : now - st < DEBOUNCE_INTERVAL
      · rw [trigger_eq_debounced cfg env now st k hr hw hd]; simp
      · cases hl : env.workflows with
        | error m => rw [trigger_eq_listFailed cfg env now st k m hr hw hd hl]; simp
        | ok wfs =>
          cases hf : wfs.find? (fun w => pyEndswith w.path (orEmpty cfg.workflow_file)) with
          | none => rw [trigger_eq_jobNotFound cfg env now st k wfs hr hw hd hl hf]; simp
          | some wf =>
            cases hdis : env.dispatch wf.id with
            | ok u =>
              cases u
              rw [trigger_eq_dispatched cfg env now st k wfs wf hr hw hd hl hf hdis]
              simp
              omega
            | error m =>
              rw [trigger_eq_dispatchFailed cfg env now st k wfs wf m hr hw hd hl hf hdis]
              simp
    · rw [trigger_eq_missingWorkflowFile cfg env now st k hr (by simpa using hw)]; simp
  · rw [trigger_eq_missingRepo cfg env now st k (by simpa using hr)]; simp

/-- Along any trace of qualifying events, every success time is at least one
whole debounce window after the incoming state, and consecutive success
times are pairwise at least one window apart. -/
theorem successTimes_lb_pairwise (cfg : Config) (es : List QEvent) :
    ∀ st : Int,
      (∀ x ∈ successTimes cfg st es, st + DEBOUNCE_INTERVAL ≤ x) ∧
      List.Pairwise (fun a b => a + DEBOUNCE_INTERVAL ≤ b) (successTimes cfg st es) := by
  induction es with
  | nil => intro st; simp [successTimes, runTrace]
  | cons e es ih =>
    intro st
    have hstep := trigger_ok_facts cfg e.env e.time st e.key
    by_cases hok : (trigger_github_workflow cfg e.env e.time st e.key).ok = true
    · obtain ⟨hnew, hle⟩ := hstep.1 hok
      have hsucc : successTimes cfg st (e :: es) =
          e.time :: successTimes cfg e.time es := by
        simp [successTimes, runTrace, hok, hnew]
      obtain ⟨ihlb, ihpw⟩ := ih e.time
      rw [hsucc]
      have hD : DEBOUNCE_INTERVAL = 180 := rfl
      constructor
      · intro x hx
        rcases List.mem_cons.mp hx with h | h
        · omega
        · have := ihlb x h; omega
      · exact List.pairwise_cons.mpr ⟨fun b hb => ihlb b hb, ihpw⟩
    · have hok' : (trigger_github_workflow cfg e.env e.time st e.key).ok = false := by
        simpa using hok
      have hnew := hstep.2 hok'
      have hsucc : successTimes cfg st (e :: es) = successTimes cfg st es := by
        simp [successTimes, runTrace, hok', hnew]
      rw [hsucc]
      exact ih st

/-- With both configuration values truthy, the GitHub calls are reached iff
the debounce window has elapsed. -/
theorem trigger_listCalled_iff (cfg : Config) (env : GitHubEnv) (now st : Int)
    (k : String) (hr : truthy cfg.github_repo = true)
    (hw : truthy cfg.workflow_file = true) :
    (trigger_github_workflow cfg env now st k).listCalled = true ↔
      DEBOUNCE_INTERVAL ≤ now - st := by
  by_cases hd : now - st < DEBOUNCE_INTERVAL
  · rw [trigger_eq_debounced cfg env now st k hr hw hd]
    simp
    omega
  · have hge : DEBOUNCE_INTERVAL ≤ now - st := by omega
    cases hl : env.workflows with
    | error m =>
      rw [trigger_eq_listFailed cfg env now st k m hr hw hd hl]
      simpa using hge
    | ok wfs =>
      cases hf : wfs.find? (fun w => pyEndswith w.path (orEmpty cfg.workflow_file)) with
      | none =>
        rw [trigger_eq_jobNotFound cfg env now st k wfs hr hw hd hl hf]
        simpa using hge
      | some wf =>
        cases hdis : env.dispatch wf.id with
        | ok u =>
          cases u
          rw [trigger_eq_dispatched cfg env now st k wfs wf hr hw hd hl hf hdis]
          simpa using hge
        | error m =>
          rw [trigger_eq_dispatchFailed cfg env now st k wfs wf m hr hw hd hl hf hdis]
          simpa using hge

/-! ### Claims -/

/-- Claim C1: with `GITHUB_REPO` and `WORKFLOW_FILE` configured, the rate
limiter permits the dispatch (the downstream GitHub calls are reached) iff
`now - t_last >= 180`; in particular, with the last trigger recorded at
time `t`, a qualifying event at `t + 179` returns `False` with a debounce
log, and one at `t + 180` is attempted. -/
theorem C1_debounce_window (cfg : Config) (env : GitHubEnv) (now st t : Int)
    (k : String) (hr : truthy cfg.github_repo = true)
    (hw : truthy cfg.workflow_file = true) :
    ((trigger_github_workflow cfg env now st k).listCalled = true ↔
      DEBOUNCE_INTERVAL ≤ now - st) ∧
    ((trigger_github_workflow cfg env (t + 179) t k).ok = false ∧
      (trigger_github_workflow cfg env (t + 179) t k).outcome = .debounced 179) ∧
    (trigger_github_workflow cfg env (t + 180) t k).listCalled = true := by
  have hd : t + 179 - t < DEBOUNCE_INTERVAL := by
    simp [DEBOUNCE_INTERVAL]
  have h179 : t + 179 - t = (179 : Int) := by omega
  refine ⟨trigger_listCalled_iff cfg env now st k hr hw, ⟨?_, ?_⟩, ?_⟩
  · rw [trigger_eq_debounced cfg env (t + 179) t k hr hw hd]
  · rw [trigger_eq_debounced cfg env (t + 179) t k hr hw hd, h179]
  · exact (trigger_listCalled_iff cfg env (t + 180) t k hr hw).mpr (by
      have hI : DEBOUNCE_INTERVAL = 180 := rfl
      omega)

/-- Witness for C1 at a concrete configuration, oracle and clock. -/
theorem C1_debounce_window_witness :
    (trigger_github_workflow cfgFull envOk (500 + 180) 500 "ns/svc").listCalled = true :=
  (C1_debounce_window cfgFull envOk 1000 0 500 "ns/svc" (by decide) (by decide)).2.2

/-- Claim C2: the trigger state is updated iff the `create_dispatch` call
itself reports success; every failed or skipped attempt returns `False` and
leaves `last_trigger_global` exactly as it was. -/
theorem C2_state_updated_iff_dispatch_success (cfg : Config) (env : GitHubEnv)
    (now st : Int) (k : String) :
    ((trigger_github_workflow cfg env now st k).ok = true →
      (trigger_github_workflow cfg env now st k).newState = now) ∧
    ((trigger_github_workflow cfg env now st k).ok = false →
      (trigger_github_workflow cfg env now st k).newState = st) ∧
    ((trigger_github_workflow cfg env now st k).ok = true ↔
      ∃ wf, (trigger_github_workflow cfg env now st k).selected = some wf ∧
        (trigger_github_workflow cfg env now st k).dispatchCalled = true ∧
        env.dispatch wf.id = .ok ()) := by
  by_cases hr : truthy cfg.github_repo = true
  · by_cases hw : truthy cfg.workflow_file = true
    · by_cases hd : now - st < DEBOUNCE_INTERVAL
      · rw [trigger_eq_debounced cfg env now st k hr hw hd]; simp
      · cases hl : env.workflows with
        | error m =>
          rw [trigger_eq_listFailed cfg env now st k m hr hw hd hl]; simp
        | ok wfs =>
          cases hf : wfs.find? (fun w => pyEndswith w.path (orEmpty cfg.workflow_file)) with
          | none =>
            rw [trigger_eq_jobNotFound cfg env now st k wfs hr hw hd hl hf]; simp
          | some wf =>
            cases hdis : env.dispatch wf.id with
            | ok u =>
              cases u
              rw [trigger_eq_dispatched cfg env now st k wfs wf hr hw hd hl hf hdis]
              simp [hdis]
            | error m =>
              rw [trigger_eq_dispatchFailed cfg env now st k wfs wf m hr hw hd hl hf hdis]
              simp [hdis]
    · rw [trigger_eq_missingWorkflowFile cfg env now st k hr (by simpa using hw)]; simp
  · rw [trigger_eq_missingRepo cfg env now st k (by simpa using hr)]; simp

/-- Witness for C2: a concrete successful dispatch sets the state to the
call's clock value. -/
theorem C2_state_updated_iff_dispatch_success_witness :
    (trigger_github_workflow cfgFull envOk 1000 0 "ns/svc").newState = 1000 :=
  (C2_state_updated_iff_dispatch_success cfgFull envOk 1000 0 "ns/svc").1 (by decide)

/-- Claim C4: only events with `spec.type == 'LoadBalancer'` and
`event['type']` in `ADDED`/`MODIFIED`/`DELETED` reach
`trigger_github_workflow`; any other event is a complete no-op of the loop
body (no trigger call, no state change, no downstream interaction). -/
theorem C4_event_filter (tok : Option String) (cfg : Config) (env : GitHubEnv)
    (now st : Int) (ev : K8sEvent)
    (h : ev.svcType ≠ "LoadBalancer" ∨
      ¬(ev.typ = "ADDED" ∨ ev.typ = "MODIFIED" ∨ ev.typ = "DELETED")) :
    process_event tok cfg env now st ev = ⟨false, none, st, false⟩ := by
  rcases h with h | h
  · simp [process_event, h]
  · by_cases h2 : ev.svcType = "LoadBalancer"
    · simp [process_event, h2, h]
    · simp [process_event, h2]

/-- Witness for C4: a `BOOKMARK` event on a LoadBalancer service is dropped. -/
theorem C4_event_filter_witness :
    process_event (some "tok") cfgFull envOk 1000 0
      ⟨"BOOKMARK", "ns", "svc", "LoadBalancer"⟩ = ⟨false, none, 0, false⟩ :=
  C4_event_filter (some "tok") cfgFull envOk 1000 0
    ⟨"BOOKMARK", "ns", "svc", "LoadBalancer"⟩ (Or.inr (by decide))

/-- Claim C6: a falsy `GITHUB_REPO` (and likewise a falsy `WORKFLOW_FILE`)
makes every attempt return `False` with the corresponding error logged, no
downstream call of any kind, and the state untouched; being an ordinary
return, the watch loop and process continue. -/
theorem C6_configuration_missing (cfg : Config) (env : GitHubEnv)
    (now st : Int) (k : String) :
    (truthy cfg.github_repo = false →
      trigger_github_workflow cfg env now st k =
        ⟨false, st, .missingRepo, false, false, none, none⟩) ∧
    (truthy cfg.github_repo = true → truthy cfg.workflow_file = false →
      trigger_github_workflow cfg env now st k =
        ⟨false, st, .missingWorkflowFile, false, false, none, none⟩) :=
  ⟨fun h => trigger_eq_missingRepo cfg env now st k h,
   fun hr hw => trigger_eq_missingWorkflowFile cfg env now st k hr hw⟩

/-- Witness for C6 with `GITHUB_REPO` unset. -/
theorem C6_configuration_missing_witness :
    trigger_github_workflow cfgNoRepo envOk 1000 0 "ns/svc" =
      ⟨false, 0, .missingRepo, false, false, none, none⟩ :=
  (C6_configuration_missing cfgNoRepo envOk 1000 0 "ns/svc").1 (by decide)

/-- Claim C3: the rate-limit state is one single global timestamp shared by
all resources: the decision ignores the resource key entirely; along any
trace of qualifying events — with arbitrary, possibly distinct keys — the
times of successful dispatches are pairwise at least one whole window
apart, so at most one dispatch succeeds in total across all resources per
window; an event one whole window after the recorded state is attempted,
and an event within the window of a recorded success is skipped and logged
as debounced. -/
theorem C3_global_rate_limit (cfg : Config) (env : GitHubEnv)
    (st t u now : Int) (k k' : String) (es : List QEvent)
    (hr : truthy cfg.github_repo = true)
    (hw : truthy cfg.workflow_file = true) :
    List.Pairwise (fun a b => a + DEBOUNCE_INTERVAL ≤ b) (successTimes cfg st es) ∧
    trigger_github_workflow cfg env now st k =
      trigger_github_workflow cfg env now st k' ∧
    (st + DEBOUNCE_INTERVAL ≤ now →
      (trigger_github_workflow cfg env now st k).listCalled = true) ∧
    (u - t < DEBOUNCE_INTERVAL →
      (trigger_github_workflow cfg env u t k).ok = false ∧
      (trigger_github_workflow cfg env u t k).outcome = .debounced (u - t)) := by
  refine ⟨(successTimes_lb_pairwise cfg es st).2, rfl, ?_, ?_⟩
  · intro h
    exact (trigger_listCalled_iff cfg env now st k hr hw).mpr (by omega)
  · intro h
    rw [trigger_eq_debounced cfg env u t k hr hw h]
    exact ⟨rfl, rfl⟩

/-- Witness for C3: a concrete event 100 seconds after a recorded success is
skipped as debounced. -/
theorem C3_global_rate_limit_witness :
    (trigger_github_workflow cfgFull envOk 1100 1000 "a/b").ok = false ∧
    (trigger_github_workflow cfgFull envOk 1100 1000 "a/b").outcome =
      .debounced (1100 - 1000) :=
  (C3_global_rate_limit cfgFull envOk 0 1000 1100 1100 "a/b" "c/d"
    [⟨1000, "a/b", envOk⟩, ⟨1100, "c/d", envOk⟩]
    (by decide) (by decide)).2.2.2 (by decide)

/-- Claim C5: workflow resolution picks the first listed workflow whose path
ends with the configured `WORKFLOW_FILE`; on the concrete job list
`["ci.yml", "deploy.yml"]` with configured filename `deploy.yml` it selects
`deploy.yml` and not `ci.yml`; when no path has that suffix the attempt
fails: the job-not-found error is logged, `False` is returned, and no
dispatch call is made. -/
theorem C5_workflow_resolution (cfg : Config) (env : GitHubEnv)
    (now st : Int) (k : String) (wfs : List Workflow)
    (hr : truthy cfg.github_repo = true)
    (hw : truthy cfg.workflow_file = true)
    (hd : ¬ now - st < DEBOUNCE_INTERVAL) (hl : env.workflows = .ok wfs) :
    ((trigger_github_workflow cfg env now st k).selected =
      wfs.find? (fun w => pyEndswith w.path (orEmpty cfg.workflow_file))) ∧
    (wfs.find? (fun w => pyEndswith w.path (orEmpty cfg.workflow_file)) = none →
      trigger_github_workflow cfg env now st k =
        ⟨false, st, .jobNotFound, true, false, none, none⟩) ∧
    (trigger_github_workflow cfgFull envOk 1000 0 "k").selected =
      some ⟨"deploy.yml", 2⟩ ∧
    (trigger_github_workflow cfgFull envOk 1000 0 "k").selected ≠
      some ⟨"ci.yml", 1⟩ := by
  refine ⟨?_, fun hf => trigger_eq_jobNotFound cfg env now st k wfs hr hw hd hl hf,
    by decide, by decide⟩
  cases hf : wfs.find? (fun w => pyEndswith w.path (orEmpty cfg.workflow_file)) with
  | none => rw [trigger_eq_jobNotFound cfg env now st k wfs hr hw hd hl hf]
  | some wf =>
    cases hdis : env.dispatch wf.id with
    | ok u =>
      cases u
      rw [trigger_eq_dispatched cfg env now st k wfs wf hr hw hd hl hf hdis]
    | error m =>
      rw [trigger_eq_dispatchFailed cfg env now st k wfs wf m hr hw hd hl hf hdis]

/-- Witness for C5: the concrete selection on `["ci.yml", "deploy.yml"]`. -/
theorem C5_workflow_resolution_witness :
    (trigger_github_workflow cfgFull envOk 1000 0 "ns/svc").selected =
      [Workflow.mk "ci.yml" 1, Workflow.mk "deploy.yml" 2].find?
        (fun w => pyEndswith w.path (orEmpty cfgFull.workflow_file)) :=
  (C5_workflow_resolution cfgFull envOk 1000 0 "ns/svc"
    [⟨"ci.yml", 1⟩, ⟨"deploy.yml", 2⟩]
    (by decide) (by decide) (by decide) rfl).1

/-- Claim C7 counterexample: with `TENANT` and `PROJECT` both absent and
everything else configured, a qualifying attempt is NOT treated as a no-op:
the downstream dispatch call is made (with empty-string inputs), succeeds,
and no missing-variable error is logged — contradicting the claim that no
downstream dispatch call is made when `TENANT` or `PROJECT` is absent. -/
theorem C7_counterexample :
    cfgNoTenant.tenant = none ∧ cfgNoTenant.project = none ∧
    (trigger_github_workflow cfgNoTenant envOk 1000 0 "default/svc").dispatchCalled
      = true ∧
    (trigger_github_workflow cfgNoTenant envOk 1000 0 "default/svc").ok = true ∧
    (trigger_github_workflow cfgNoTenant envOk 1000 0 "default/svc").dispatchInputs
      = some ("", "") := by
  decide

/-- Claim C7 as amended: an absent `TENANT` or `PROJECT` does not gate the
attempt at all — the return value, logged outcome, dispatch call, state
update and selected workflow are identical for every value of the two
variables, and when both are absent the dispatch (if reached) carries the
empty string for both inputs; the absence is not fatal and not separately
logged. -/
theorem C7_tenant_project_not_gating (cfg : Config) (env : GitHubEnv)
    (now st : Int) (k : String) (t p : Option String) :
    ((trigger_github_workflow {cfg with tenant := t, project := p} env now st k).ok =
      (trigger_github_workflow cfg env now st k).ok) ∧
    ((trigger_github_workflow {cfg with tenant := t, project := p} env now st k).outcome =
      (trigger_github_workflow cfg env now st k).outcome) ∧
    ((trigger_github_workflow {cfg with tenant := t, project := p} env now st k).dispatchCalled =
      (trigger_github_workflow cfg env now st k).dispatchCalled) ∧
    ((trigger_github_workflow {cfg with tenant := t, project := p} env now st k).newState =
      (trigger_github_workflow cfg env now st k).newState) ∧
    ((trigger_github_workflow {cfg with tenant := t, project := p} env now st k).selected =
      (trigger_github_workflow cfg env now st k).selected) ∧
    (cfg.tenant = none → cfg.project = none →
      (trigger_github_workflow cfg env now st k).dispatchCalled = true →
      (trigger_github_workflow cfg env now st k).dispatchInputs = some ("", "")) := by
  by_cases hr : truthy cfg.github_repo = true
  · by_cases hw : truthy cfg.workflow_file = true
    · by_cases hd : now - st < DEBOUNCE_INTERVAL
      · rw [trigger_eq_debounced cfg env now st k hr hw hd,
          trigger_eq_debounced {cfg with tenant := t, project := p} env now st k hr hw hd]
        simp
      · cases hl : env.workflows with
        | error m =>
          rw [trigger_eq_listFailed cfg env now st k m hr hw hd hl,
            trigger_eq_listFailed {cfg with tenant := t, project := p} env now st k m hr hw hd hl]
          simp
        | ok wfs =>
          cases hf : wfs.find? (fun w => pyEndswith w.path (orEmpty cfg.workflow_file)) with
          | none =>
            rw [trigger_eq_jobNotFound cfg env now st k wfs hr hw hd hl hf,
              trigger_eq_jobNotFound {cfg with tenant := t, project := p} env now st k wfs hr hw hd hl hf]
            simp
          | some wf =>
            cases hdis : env.dispatch wf.id with
            | ok u =>
              cases u
              rw [trigger_eq_dispatched cfg env now st k wfs wf hr hw hd hl hf hdis,
                trigger_eq_dispatched {cfg with tenant := t, project := p} env now st k wfs wf hr hw hd hl hf hdis]
              refine ⟨rfl, rfl, rfl, rfl, rfl, fun ht hp _ => ?_⟩
              simp [ht, hp, orEmpty]
            | error m =>
              rw [trigger_eq_dispatchFailed cfg env now st k wfs wf m hr hw hd hl hf hdis,
                trigger_eq_dispatchFailed {cfg with tenant := t, project := p} env now st k wfs wf m hr hw hd hl hf hdis]
              refine ⟨rfl, rfl, rfl, rfl, rfl, fun ht hp _ => ?_⟩
              simp [ht, hp, orEmpty]
    · rw [trigger_eq_missingWorkflowFile cfg env now st k hr (by simpa using hw),
        trigger_eq_missingWorkflowFile {cfg with tenant := t, project := p} env now st k hr (by simpa using hw)]
      simp
  · rw [trigger_eq_missingRepo cfg env now st k (by simpa using hr),
      trigger_eq_missingRepo {cfg with tenant := t, project := p} env now st k (by simpa using hr)]
    simp

/-- Witness for the amended C7 at a concrete configuration. -/
theorem C7_tenant_project_not_gating_witness :
    (trigger_github_workflow cfgNoTenant envOk 1000 0 "ns/svc").dispatchInputs =
      some ("", "") :=
  (C7_tenant_project_not_gating cfgNoTenant envOk 1000 0 "ns/svc"
    (some "x") (some "y")).2.2.2.2.2 rfl rfl (by decide)

/-- Claim C8 counterexample: when `watch_services` returns normally (the
stream ends without error), the supervisor iteration neither logs an error
nor sleeps the 5-second delay — it restarts immediately — so a normal
return is not handled like a thrown error. -/
theorem C8_counterexample :
    ¬((main_loop_iteration .returned).loggedError = true ∧
      (main_loop_iteration .returned).sleptSeconds = 5) := by
  decide

/-- Claim C8 as amended: the supervisor is an infinite loop with no maximum
retry count — every iteration loops again; after a thrown error it logs the
failure and waits 5 seconds before restarting the watch loop; after a
normal return of the watch loop it restarts immediately, with no log and no
delay; the loop runs every one of its first `n` iterations for every `n`. -/
theorem C8_supervisor_restart (o : WatchOutcome) (f : Nat → WatchOutcome)
    (n : Nat) :
    (main_loop_iteration o).restarts = true ∧
    (∀ m, o = .raised m → main_loop_iteration o = ⟨true, 5, true⟩) ∧
    (o = .returned → main_loop_iteration o = ⟨false, 0, true⟩) ∧
    (supervisorTrace f n).length = n := by
  refine ⟨?_, ?_, ?_, ?_⟩
  · cases o <;> rfl
  · intro m hm; rw [hm]; rfl
  · intro hm; rw [hm]; rfl
  · simp [supervisorTrace]

/-- Witness for the amended C8: a concrete raised error is logged and
followed by the 5-second delay. -/
theorem C8_supervisor_restart_witness :
    main_loop_iteration (.raised "connection reset") = ⟨true, 5, true⟩ :=
  (C8_supervisor_restart (.raised "connection reset") (fun _ => .returned) 3).2.1
    "connection reset" rfl

/-- Claim C9: a falsy `GITHUB_TOKEN` at startup exits with status 1 before
the supervisor loop; with a truthy token the loop is entered, the only exit
code `main` can produce is 1, and every supervisor iteration loops again,
so exit status 0 is never reached. -/
theorem C9_startup_token_check (tok : Option String) :
    (truthy tok = false → main_startup tok = .exited 1) ∧
    (truthy tok = true → main_startup tok = .enteredLoop) ∧
    (∀ c, main_startup tok = .exited c → c = 1) ∧
    (∀ o, (main_loop_iteration o).restarts = true) := by
  refine ⟨?_, ?_, ?_, fun o => by cases o <;> rfl⟩
  · intro h; simp [main_startup, h]
  · intro h; simp [main_startup, h]
  · intro c hc
    by_cases h : truthy tok = true
    · simp [main_startup, h] at hc
    · simp [main_startup, h] at hc
      omega

/-- Witness for C9: an unset token exits with status 1. -/
theorem C9_startup_token_check_witness :
    main_startup none = .exited 1 :=
  (C9_startup_token_check none).1 (by decide)

/-- Claim C10: `trigger_github_workflow` is total with respect to downstream
failures — for every oracle behaviour it returns a boolean result, and any
non-`true` outcome leaves the state untouched, so a downstream error can
never escape and terminate the watch subscription — and its configuration
checks run before the cooldown check: with `GITHUB_REPO` or `WORKFLOW_FILE`
falsy it returns `False` for every clock value and every incoming state,
with the state returned unchanged, no downstream call of any kind, and an
outcome that does not depend on the clock or the state. -/
theorem C10_total_and_config_first (cfg : Config) (env : GitHubEnv)
    (now st : Int) (k : String) :
    ((trigger_github_workflow cfg env now st k).ok = true ∨
      ((trigger_github_workflow cfg env now st k).ok = false ∧
        (trigger_github_workflow cfg env now st k).newState = st)) ∧
    ((truthy cfg.github_repo = false ∨ truthy cfg.workflow_file = false) →
      ∀ now' st' : Int,
        (trigger_github_workflow cfg env now' st' k).ok = false ∧
        (trigger_github_workflow cfg env now' st' k).newState = st' ∧
        (trigger_github_workflow cfg env now' st' k).listCalled = false ∧
        (trigger_github_workflow cfg env now' st' k).dispatchCalled = false ∧
        (trigger_github_workflow cfg env now' st' k).outcome =
          (trigger_github_workflow cfg env now st k).outcome) := by
  constructor
  · cases hok : (trigger_github_workflow cfg env now st k).ok with
    | true => exact Or.inl rfl
    | false =>
      exact Or.inr ⟨rfl, (trigger_ok_facts cfg env now st k).2 hok⟩
  · intro h now' st'
    rcases h with h | h
    · rw [trigger_eq_missingRepo cfg env now' st' k h,
        trigger_eq_missingRepo cfg env now st k h]
      exact ⟨rfl, rfl, rfl, rfl, rfl⟩
    · by_cases hr : truthy cfg.github_repo = true
      · rw [trigger_eq_missingWorkflowFile cfg env now' st' k hr h,
          trigger_eq_missingWorkflowFile cfg env now st k hr h]
        exact ⟨rfl, rfl, rfl, rfl, rfl⟩
      · rw [trigger_eq_missingRepo cfg env now' st' k (by simpa using hr),
          trigger_eq_missingRepo cfg env now st k (by simpa using hr)]
        exact ⟨rfl, rfl, rfl, rfl, rfl⟩

/-- Witness for C10: with `GITHUB_REPO` unset the attempt fails identically
at an arbitrary other clock value and state. -/
theorem C10_total_and_config_first_witness :
    (trigger_github_workflow cfgNoRepo envOk 999999 77 "ns/svc").ok = false ∧
    (trigger_github_workflow cfgNoRepo envOk 999999 77 "ns/svc").newState = 77 ∧
    (trigger_github_workflow cfgNoRepo envOk 999999 77 "ns/svc").listCalled = false ∧
    (trigger_github_workflow cfgNoRepo envOk 999999 77 "ns/svc").dispatchCalled = false ∧
    (trigger_github_workflow cfgNoRepo envOk 999999 77 "ns/svc").outcome =
      (trigger_github_workflow cfgNoRepo envOk 1000 0 "ns/svc").outcome :=
  (C10_total_and_config_first cfgNoRepo envOk 1000 0 "ns/svc").2
    (Or.inl (by decide)) 999999 77

end ServiceMonitor
